import Mathlib

/-!
Shallow embedding of the azure-speech-cache server (src/main.go).

The program keeps two in-memory tiers built on the go-cache library:
a durable tier (the global c, created with NoExpiration) and a temporary
tier (tempC, created with a 5 minute default expiration). We model a
go-cache store as an association list from string keys to items; an item
carries the cached entry and an optional expiration instant (none encodes
NoExpiration, some e encodes an absolute UnixNano deadline, expired when
now > e, exactly as go-cache tests Expiration > 0 and now > Expiration).
Bytes are modelled as natural numbers, byte streams as lists.
-/

/-- The cached value: the audio payload and its content type
(struct CacheEntry in main.go). -/
structure CacheEntry where
  audio : List Nat
  type : String
deriving DecidableEq

/-- A go-cache Item: the stored object plus its expiration metadata.
none models NoExpiration (Expiration = 0 in go-cache); some e models an
absolute deadline e. -/
structure Item where
  object : CacheEntry
  expiration : Option Nat
deriving DecidableEq

/-- A go-cache store: a finite map from keys to items, modelled as an
association list (Go map iteration order is arbitrary; all claims about
enumerations are stated up to set-equality). -/
abbrev Store := List (String × Item)

/-- Raw map lookup (c.items[k] in go-cache). -/
def Store.find : Store → String → Option Item
  | [], _ => none
  | kv :: rest, k => if kv.1 = k then some kv.2 else Store.find rest k

/-- Whether an item is live at instant now. go-cache treats an item as
expired exactly when Expiration > 0 and now > Expiration. -/
def Item.live (now : Nat) (it : Item) : Bool :=
  match it.expiration with
  | none => true
  | some e => Nat.ble now e

/-- go-cache Get: a found item is returned only while live; Get never
mutates the store or the expiration. -/
def Store.get (s : Store) (now : Nat) (k : String) : Option CacheEntry :=
  match Store.find s k with
  | none => none
  | some it => if Item.live now it then some it.object else none

/-- go-cache Set: insert or overwrite under the key, attaching the given
expiration metadata. -/
def Store.set (s : Store) (k : String) (v : CacheEntry) (exp : Option Nat) : Store :=
  match s with
  | [] => [(k, ⟨v, exp⟩)]
  | kv :: rest => if kv.1 = k then (k, ⟨v, exp⟩) :: rest else kv :: Store.set rest k v exp

/-- go-cache ItemCount: the size of the underlying map, which may still
include expired but not yet swept items. -/
def Store.itemCount (s : Store) : Nat := s.length

/-- go-cache Items: a copy of all unexpired items. -/
def Store.items (s : Store) (now : Nat) : Store :=
  s.filter (fun kv => Item.live now kv.2)

/-- The keys of a store. -/
def Store.keys (s : Store) : List String := s.map Prod.fst

/-- The decoded JSON body of a /tts request (struct TTSRequest). -/
structure TTSRequest where
  text : String
  language : String
  gender : String
  name : String
  style : String
  azureKey : String
  azureRegion : String
  shouldCache : Bool
deriving DecidableEq

/-- The upstream response body as observed by io.Copy: the chunks the
reader successfully delivers, and whether the read then fails with an
error instead of reaching EOF. -/
structure BodyStream where
  chunks : List (List Nat)
  readError : Bool
deriving DecidableEq

/-- Outcome of the upstream exchange (http.DefaultClient.Do): either the
request itself fails with a network error, or a response arrives carrying
a status code, a declared content type, and a body stream. -/
inductive UpstreamResult where
  | netError (msg : String)
  | httpResponse (status : Nat) (contentType : String) (body : BodyStream)
deriving DecidableEq

/-- What the handler writes back to the client: an http.Error with status
400, an http.Error with status 500, or a streamed body with its content
type; complete records whether the copy ran to EOF (false when the body
read failed mid-stream, after which the handler stops writing without
signalling anything further to the client). -/
inductive Response where
  | clientError (msg : String)
  | serverError (msg : String)
  | stream (contentType : String) (body : List Nat) (complete : Bool)
deriving DecidableEq

/-- The mutable server state: the durable tier c and the temporary tier
tempC. -/
structure ServerState where
  c : Store
  tempC : Store
deriving DecidableEq

/-- Everything a single /tts request produces: the response written to the
client, the new server state, whether the upstream exchange was performed,
and whether an asynchronous saveCache was spawned. -/
structure HandlerOutcome where
  response : Response
  state : ServerState
  upstreamCalled : Bool
  saveTriggered : Bool
deriving DecidableEq

/-- Concatenation of the body chunks: the full upstream byte sequence. -/
def joinChunks : List (List Nat) → List Nat
  | [] => []
  | ch :: rest => ch ++ joinChunks rest

/-- io.Copy into io.MultiWriter(w, buffer): each chunk read from the
source is written first to the client connection and then to the capture
buffer; the pair is (bytes written to the client, bytes captured). -/
def multiCopy (chunks : List (List Nat)) : List Nat × List Nat :=
  chunks.foldl (fun acc ch => (acc.1 ++ ch, acc.2 ++ ch)) ([], [])

/-- The temporary tier expiration used by tempC.Set: 5 minutes in
nanoseconds (time.Minute * 5). -/
def fiveMinutes : Nat := 300000000000

/-- handleTTSRequest from main.go, as a function of the decoded request
body (error when json decoding fails), the current instant, the oracle
describing what the upstream exchange would return, and the server state.
Mirrors the source line by line: decode error then missing azureKey, text,
azureRegion are each a 400; then the durable tier is probed, then the
temporary tier, a hit streaming the stored entry unchanged; on a miss the
upstream exchange runs; a network error or a non-200 status is a 500 with
no cache write; otherwise the body is copied once into the client and the
capture buffer (the io.Copy error being discarded, so a mid-stream read
error still falls through), the captured bytes become the new entry, which
goes to the durable tier with NoExpiration when shouldCache is set and
otherwise to the temporary tier with the 5 minute expiration, and a
background saveCache is spawned exactly when persist and shouldCache both
hold. -/
def handleTTSRequest (persist : Bool) (now : Nat) (upstream : UpstreamResult)
    (decoded : Except String TTSRequest) (st : ServerState) : HandlerOutcome :=
  match decoded with
  | .error msg => ⟨.clientError msg, st, false, false⟩
  | .ok req =>
    if req.azureKey = "" then ⟨.clientError "azureKey is required", st, false, false⟩
    else if req.text = "" then ⟨.clientError "text is required", st, false, false⟩
    else if req.azureRegion = "" then ⟨.clientError "azureRegion is required", st, false, false⟩
    else
      match Store.get st.c now req.text with
      | some entry => ⟨.stream entry.type entry.audio true, st, false, false⟩
      | none =>
        match Store.get st.tempC now req.text with
        | some entry => ⟨.stream entry.type entry.audio true, st, false, false⟩
        | none =>
          match upstream with
          | .netError msg => ⟨.serverError msg, st, true, false⟩
          | .httpResponse status ctype body =>
            if status ≠ 200 then
              ⟨.serverError ("Azure returned " ++ toString status), st, true, false⟩
            else
              let copied := multiCopy body.chunks
              let entry : CacheEntry := ⟨copied.2, ctype⟩
              let st2 : ServerState :=
                if req.shouldCache then
                  ⟨Store.set st.c req.text entry none, st.tempC⟩
                else
                  ⟨st.c, Store.set st.tempC req.text entry (some (now + fiveMinutes))⟩
              ⟨.stream ctype copied.1 (!body.readError), st2, true, persist && req.shouldCache⟩

/-- The persistence file cache-data.bin as seen at startup or after a
save: absent, present but not decodable as a gob map of items, or a good
gob encoding of a map of items. -/
inductive FileState where
  | absent
  | corrupt
  | good (items : List (String × Item))
deriving DecidableEq

/-- The two ways saveCache can fail: os.Create fails, or the gob encode
fails after the file was created. -/
inductive SaveFailure where
  | createFail
  | encodeFail
deriving DecidableEq

/-- The result of one saveCache call: the (unchanged) server state, the
resulting on-disk file, and the log lines emitted. -/
structure SaveOutcome where
  state : ServerState
  file : FileState
  logs : List String
deriving DecidableEq

/-- saveCache from main.go. When os.Create fails the code logs and does
not return: file is a nil handle, and in Go both (*os.File).Close and
(*os.File).Write on nil return os.ErrInvalid rather than panicking, so
the subsequent encoder.Encode fails and is logged too; the deferred Close
is likewise harmless. When encoding fails after a successful create, the
file has been truncated and partially rewritten, so the on-disk state is
corrupt. On success the file holds the gob encoding of c.Items(), the
unexpired durable items. In no case is either tier touched. -/
def saveCache (failure : Option SaveFailure) (now : Nat) (st : ServerState)
    (fs : FileState) : SaveOutcome :=
  match failure with
  | some .createFail =>
      ⟨st, fs, ["Failed to create cache file", "Failed to save cache"]⟩
  | some .encodeFail =>
      ⟨st, .corrupt, ["Failed to save cache"]⟩
  | none =>
      ⟨st, .good (Store.items st.c now), ["Cache saved to binary file"]⟩

/-- loadCache from main.go, run once at startup against the fresh empty
durable tier: an absent file logs and leaves the tier empty; a file that
fails to decode is log.Fatal, halting startup; otherwise every decoded
entry is re-inserted with cache.DefaultExpiration, which for c is
NoExpiration. -/
def loadCache (fs : FileState) : Except String Store :=
  match fs with
  | .absent => .ok []
  | .corrupt => .error "gob decode failed: log.Fatal"
  | .good items =>
      .ok (items.foldl (fun s kv => Store.set s kv.1 kv.2.object none) [])

/-- The bytes the /status accounting attributes to one durable item: the
payload length plus the key length. -/
def entryBytes (kv : String × Item) : Nat :=
  kv.2.object.audio.length + kv.1.length

/-- The cache-related part of the /status response: ItemCount of the
durable tier, and the occupied memory summed over c.Items(). -/
structure StatusReport where
  itemsCount : Nat
  occupiedBytes : Nat
deriving DecidableEq

/-- handleStatusRequest from main.go, restricted to the cache figures (the
runtime.MemStats fields are process diagnostics outside the core). -/
def handleStatusRequest (now : Nat) (st : ServerState) : StatusReport :=
  ⟨Store.itemCount st.c,
   (Store.items st.c now).foldl (fun acc kv => acc + entryBytes kv) 0⟩

/-- The three mandatory request fields, checked by the handler before any
cache access. -/
def validFields (req : TTSRequest) : Prop :=
  req.azureKey ≠ "" ∧ req.text ≠ "" ∧ req.azureRegion ≠ ""

instance (req : TTSRequest) : Decidable (validFields req) := by
  unfold validFields; infer_instance

/-- Both tiers miss the key at the given instant. -/
def missBoth (st : ServerState) (now : Nat) (k : String) : Prop :=
  Store.get st.c now k = none ∧ Store.get st.tempC now k = none

instance (st : ServerState) (now : Nat) (k : String) : Decidable (missBoth st now k) := by
  unfold missBoth; infer_instance

/-- Every item of the store carries NoExpiration: the invariant of the
durable tier, whose inserts all use NoExpiration. -/
def neverExpires (s : Store) : Prop :=
  ∀ kv ∈ s, kv.2.expiration = none

instance (s : Store) : Decidable (neverExpires s) := by
  unfold neverExpires; infer_instance

/-- The keys of the store are pairwise distinct: holds for any state that
mirrors a Go map. -/
def nodupKeys (s : Store) : Prop := (Store.keys s).Nodup

instance (s : Store) : Decidable (nodupKeys s) := by
  unfold nodupKeys; infer_instance

/-- Neither tier holds an entry under the empty-string key. -/
def noEmptyKey (st : ServerState) : Prop :=
  (∀ kv ∈ st.c, kv.1 ≠ "") ∧ (∀ kv ∈ st.tempC, kv.1 ≠ "")

instance (st : ServerState) : Decidable (noEmptyKey st) := by
  unfold noEmptyKey; infer_instance

/-!  Shared lemmas about the store and the streaming copy. -/

theorem multiCopy_go (chunks : List (List Nat)) (a b : List Nat) :
    chunks.foldl (fun acc ch => (acc.1 ++ ch, acc.2 ++ ch)) (a, b) =
      (a ++ joinChunks chunks, b ++ joinChunks chunks) := by
  induction chunks generalizing a b with
  | nil => simp [joinChunks]
  | cons ch rest ih => simp [joinChunks, ih, List.append_assoc]

theorem multiCopy_eq (chunks : List (List Nat)) :
    multiCopy chunks = (joinChunks chunks, joinChunks chunks) := by
  simpa using multiCopy_go chunks [] []

theorem find_set_self (s : Store) (k : String) (v : CacheEntry) (e : Option Nat) :
    Store.find (Store.set s k v e) k = some ⟨v, e⟩ := by
  induction s with
  | nil => simp [Store.set, Store.find]
  | cons kv rest ih =>
    by_cases h : kv.1 = k
    · simp [Store.set, h, Store.find]
    · simp [Store.set, h, Store.find, ih]

theorem get_set_self (s : Store) (now : Nat) (k : String) (v : CacheEntry) :
    Store.get (Store.set s k v none) now k = some v := by
  simp [Store.get, find_set_self, Item.live]

theorem get_none_mono (s : Store) (n1 n2 : Nat) (k : String)
    (h : Store.get s n1 k = none) (h12 : n1 ≤ n2) : Store.get s n2 k = none := by
  unfold Store.get at h ⊢
  cases hf : Store.find s k with
  | none => simp
  | some it =>
    rw [hf] at h
    cases hexp : it.expiration with
    | none => simp [Item.live, hexp] at h
    | some e =>
      simp only [Item.live, hexp] at h ⊢
      have he : ¬ n1 ≤ e := by
        by_contra hc
        simp [Nat.ble_eq.mpr hc] at h
      have : ¬ n2 ≤ e := fun hc => he (le_trans h12 hc)
      simp [Nat.ble_eq, this]

theorem mem_set (s : Store) (k : String) (v : CacheEntry) (e : Option Nat)
    (kv : String × Item) (h : kv ∈ Store.set s k v e) : kv ∈ s ∨ kv.1 = k := by
  induction s with
  | nil =>
    simp [Store.set] at h
    right; rw [h]
  | cons hd rest ih =>
    by_cases hh : hd.1 = k
    · simp only [Store.set, if_pos hh, List.mem_cons] at h
      rcases h with h | h
      · right; rw [h]
      · left; simp [h]
    · simp only [Store.set, if_neg hh, List.mem_cons] at h
      rcases h with h | h
      · left; simp [h]
      · rcases ih h with h2 | h2
        · left; simp [h2]
        · right; exact h2

theorem set_fresh (s : Store) (k : String) (v : CacheEntry) (e : Option Nat)
    (h : k ∉ Store.keys s) : Store.set s k v e = s ++ [(k, ⟨v, e⟩)] := by
  induction s with
  | nil => rfl
  | cons kv rest ih =>
    simp only [Store.keys, List.map_cons, List.mem_cons] at h
    push_neg at h
    have hne : ¬ kv.1 = k := fun hc => h.1 hc.symm
    simp [Store.set, hne, ih h.2]

theorem keys_append (s t : Store) :
    Store.keys (s ++ t) = Store.keys s ++ Store.keys t := by
  simp [Store.keys]

theorem load_fold (items : List (String × Item)) (acc : Store)
    (hnd : (Store.keys items).Nodup)
    (hdisj : ∀ kv ∈ items, kv.1 ∉ Store.keys acc) :
    items.foldl (fun s kv => Store.set s kv.1 kv.2.object none) acc =
      acc ++ items.map (fun kv => (kv.1, ⟨kv.2.object, none⟩)) := by
  induction items generalizing acc with
  | nil => simp
  | cons kv rest ih =>
    simp only [List.foldl_cons, List.map_cons]
    rw [set_fresh acc kv.1 kv.2.object none (hdisj kv (by simp))]
    have hnd' : (kv.1 :: Store.keys rest).Nodup := by
      simpa only [Store.keys, List.map_cons] using hnd
    have hnd2 : (Store.keys rest).Nodup := hnd'.of_cons
    have hfresh : kv.1 ∉ Store.keys rest := (List.nodup_cons.mp hnd').1
    have hdisj2 : ∀ kv2 ∈ rest,
        kv2.1 ∉ Store.keys (acc ++ [(kv.1, (⟨kv.2.object, none⟩ : Item))]) := by
      intro kv2 h2
      rw [keys_append]
      intro hmem
      rcases List.mem_append.mp hmem with hm | hm
      · exact hdisj kv2 (List.mem_cons_of_mem _ h2) hm
      · have heq : kv2.1 = kv.1 := by simpa [Store.keys] using hm
        apply hfresh
        rw [← heq]
        exact List.mem_map_of_mem Prod.fst h2
    rw [ih (acc ++ [(kv.1, (⟨kv.2.object, none⟩ : Item))]) hnd2 hdisj2]
    simp

theorem get_set_live (s : Store) (now : Nat) (k : String) (v : CacheEntry) (e : Nat)
    (h : now ≤ e) : Store.get (Store.set s k v (some e)) now k = some v := by
  simp [Store.get, find_set_self, Item.live, Nat.ble_eq.mpr h]

theorem items_never (s : Store) (now : Nat) (hne : neverExpires s) :
    Store.items s now = s := by
  unfold Store.items
  apply List.filter_eq_self.mpr
  intro kv h
  simp [Item.live, hne kv h]

theorem handler_hit_c (persist : Bool) (now : Nat) (upstream : UpstreamResult)
    (req : TTSRequest) (st : ServerState) (e : CacheEntry)
    (hv : validFields req) (h : Store.get st.c now req.text = some e) :
    handleTTSRequest persist now upstream (.ok req) st =
      ⟨.stream e.type e.audio true, st, false, false⟩ := by
  obtain ⟨h1, h2, h3⟩ := hv
  unfold handleTTSRequest
  simp [h1, h2, h3, h]

theorem handler_hit_temp (persist : Bool) (now : Nat) (upstream : UpstreamResult)
    (req : TTSRequest) (st : ServerState) (e : CacheEntry)
    (hv : validFields req) (hc : Store.get st.c now req.text = none)
    (h : Store.get st.tempC now req.text = some e) :
    handleTTSRequest persist now upstream (.ok req) st =
      ⟨.stream e.type e.audio true, st, false, false⟩ := by
  obtain ⟨h1, h2, h3⟩ := hv
  unfold handleTTSRequest
  simp [h1, h2, h3, hc, h]

theorem handler_neterr (persist : Bool) (now : Nat) (msg : String)
    (req : TTSRequest) (st : ServerState)
    (hv : validFields req) (hm : missBoth st now req.text) :
    handleTTSRequest persist now (.netError msg) (.ok req) st =
      ⟨.serverError msg, st, true, false⟩ := by
  obtain ⟨h1, h2, h3⟩ := hv
  obtain ⟨hc, ht⟩ := hm
  unfold handleTTSRequest
  simp [h1, h2, h3, hc, ht]

theorem handler_badstatus (persist : Bool) (now : Nat) (status : Nat)
    (ctype : String) (body : BodyStream) (req : TTSRequest) (st : ServerState)
    (hv : validFields req) (hm : missBoth st now req.text) (hs : status ≠ 200) :
    handleTTSRequest persist now (.httpResponse status ctype body) (.ok req) st =
      ⟨.serverError ("Azure returned " ++ toString status), st, true, false⟩ := by
  obtain ⟨h1, h2, h3⟩ := hv
  obtain ⟨hc, ht⟩ := hm
  unfold handleTTSRequest
  simp [h1, h2, h3, hc, ht, hs]

theorem handler_success (persist : Bool) (now : Nat) (ctype : String)
    (body : BodyStream) (req : TTSRequest) (st : ServerState)
    (hv : validFields req) (hm : missBoth st now req.text) :
    handleTTSRequest persist now (.httpResponse 200 ctype body) (.ok req) st =
      ⟨.stream ctype (joinChunks body.chunks) (!body.readError),
       (if req.shouldCache then
          ⟨Store.set st.c req.text ⟨joinChunks body.chunks, ctype⟩ none, st.tempC⟩
        else
          ⟨st.c, Store.set st.tempC req.text ⟨joinChunks body.chunks, ctype⟩
            (some (now + fiveMinutes))⟩),
       true, persist && req.shouldCache⟩ := by
  obtain ⟨h1, h2, h3⟩ := hv
  obtain ⟨hc, ht⟩ := hm
  unfold handleTTSRequest
  simp [h1, h2, h3, hc, ht, multiCopy_eq]

/-!  Claim theorems. -/

/-- Claim C1, counterexample: the claim asserts that a network or read
error at any point, including mid-stream during the body copy, leaves
both tiers unwritten and informs the client of the failure. In the code
the return value of io.Copy is discarded: on a request for "hi" whose
upstream body delivers the chunk [1, 2] and then fails with a read error,
the handler still commits the partially captured bytes [1, 2] into the
durable tier under the key "hi", and the client receives a truncated 200
stream rather than an error. -/
theorem C1_midstream_counterexample :
    Store.find (handleTTSRequest true 0
        (UpstreamResult.httpResponse 200 "audio/mpeg" ⟨[[1, 2]], true⟩)
        (Except.ok ⟨"hi", "en", "Female", "voice", "cheerful", "key", "region", true⟩)
        ⟨[], []⟩).state.c "hi" =
      some ⟨⟨[1, 2], "audio/mpeg"⟩, none⟩ ∧
    (handleTTSRequest true 0
        (UpstreamResult.httpResponse 200 "audio/mpeg" ⟨[[1, 2]], true⟩)
        (Except.ok ⟨"hi", "en", "Female", "voice", "cheerful", "key", "region", true⟩)
        ⟨[], []⟩).response =
      Response.stream "audio/mpeg" [1, 2] false := by
  constructor <;> rfl

/-- Claim C1 as amended: for every request that misses both tiers and
whose upstream exchange fails before the body copy begins — the request
dispatch itself fails with a network error, or the response status is not
success — no cache entry is written into either tier (the state is
returned unchanged) and the client is informed of the failure with a 500
error. Failures mid-stream during the body copy are excluded: there the
io.Copy error is discarded and the partial capture is still cached. -/
theorem C1_prebody_failure_no_write (persist : Bool) (now : Nat)
    (req : TTSRequest) (st : ServerState)
    (hv : validFields req) (hm : missBoth st now req.text) :
    (∀ msg, handleTTSRequest persist now (.netError msg) (.ok req) st =
      ⟨.serverError msg, st, true, false⟩) ∧
    (∀ status ctype body, status ≠ 200 →
      handleTTSRequest persist now (.httpResponse status ctype body) (.ok req) st =
        ⟨.serverError ("Azure returned " ++ toString status), st, true, false⟩) := by
  constructor
  · intro msg
    exact handler_neterr persist now msg req st hv hm
  · intro status ctype body hs
    exact handler_badstatus persist now status ctype body req st hv hm hs

/-- Claim C1 witness: the amended theorem evaluated at a concrete request,
a concrete network failure and a concrete 403 upstream status. -/
theorem C1_prebody_failure_no_write_witness :
    handleTTSRequest false 7 (.netError "dial tcp: timeout")
        (Except.ok ⟨"hello", "en", "f", "v", "s", "k", "r", true⟩) ⟨[], []⟩ =
      ⟨.serverError "dial tcp: timeout", ⟨[], []⟩, true, false⟩ ∧
    handleTTSRequest false 7 (.httpResponse 403 "text/plain" ⟨[[9]], false⟩)
        (Except.ok ⟨"hello", "en", "f", "v", "s", "k", "r", true⟩) ⟨[], []⟩ =
      ⟨.serverError ("Azure returned " ++ toString 403), ⟨[], []⟩, true, false⟩ :=
  ⟨(C1_prebody_failure_no_write false 7 ⟨"hello", "en", "f", "v", "s", "k", "r", true⟩
      ⟨[], []⟩ (by decide) (by decide)).1 "dial tcp: timeout",
   (C1_prebody_failure_no_write false 7 ⟨"hello", "en", "f", "v", "s", "k", "r", true⟩
      ⟨[], []⟩ (by decide) (by decide)).2 403 "text/plain" ⟨[[9]], false⟩ (by decide)⟩

/-- Claim C2: saveCache never touches either tier under any outcome, and
each failure mode only logs and runs to completion. In particular the
branch after a failed os.Create is safe: the code logs, falls through with
a nil file handle (Close and Write on a nil os.File return ErrInvalid in
Go rather than panicking), the encode then fails and is logged as well,
and the previous on-disk file is left as it was. -/
theorem C2_save_failure_safe (failure : Option SaveFailure) (now : Nat)
    (st : ServerState) (fs : FileState) :
    (saveCache failure now st fs).state = st ∧
    (saveCache (some SaveFailure.createFail) now st fs).logs =
      ["Failed to create cache file", "Failed to save cache"] ∧
    (saveCache (some SaveFailure.createFail) now st fs).file = fs ∧
    (saveCache (some SaveFailure.encodeFail) now st fs).logs =
      ["Failed to save cache"] := by
  refine ⟨?_, rfl, rfl, rfl⟩
  cases failure with
  | none => rfl
  | some f => cases f <;> rfl

/-- Claim C3: the cache key is exactly the verbatim request text. After a
first request is served from upstream and cached (in whichever tier its
shouldCache flag selected), any second request with the same text — its
language, gender, voice name, style, credentials and flag all arbitrary —
is a cache hit: it receives exactly the first request audio bytes and
content type, performs no upstream exchange, and leaves the state
unchanged. The second lookup happens at any later instant still inside
the 5 minute temporary window (immediately, in particular). -/
theorem C3_key_ignores_voice_params (persist1 persist2 : Bool) (now1 now2 : Nat)
    (req1 req2 : TTSRequest) (st st1 : ServerState) (ctype : String)
    (body : BodyStream) (upstream2 : UpstreamResult)
    (hv1 : validFields req1) (hv2 : validFields req2)
    (htext : req2.text = req1.text)
    (hm : missBoth st now1 req1.text)
    (h12 : now1 ≤ now2) (hwin : now2 ≤ now1 + fiveMinutes)
    (hst1 : (handleTTSRequest persist1 now1 (.httpResponse 200 ctype body)
        (.ok req1) st).state = st1) :
    handleTTSRequest persist2 now2 upstream2 (.ok req2) st1 =
      ⟨.stream ctype (joinChunks body.chunks) true, st1, false, false⟩ := by
  rw [handler_success persist1 now1 ctype body req1 st hv1 hm] at hst1
  by_cases hsc : req1.shouldCache
  · simp only [hsc, if_pos] at hst1
    have hget : Store.get st1.c now2 req2.text =
        some ⟨joinChunks body.chunks, ctype⟩ := by
      rw [← hst1, htext]
      exact get_set_self st.c now2 req1.text ⟨joinChunks body.chunks, ctype⟩
    exact handler_hit_c persist2 now2 upstream2 req2 st1
      ⟨joinChunks body.chunks, ctype⟩ hv2 hget
  · simp only [hsc, if_neg, Bool.false_eq_true, not_false_eq_true] at hst1
    have hgc : Store.get st1.c now2 req2.text = none := by
      rw [← hst1, htext]
      exact get_none_mono st.c now1 now2 req1.text hm.1 h12
    have hgt : Store.get st1.tempC now2 req2.text =
        some ⟨joinChunks body.chunks, ctype⟩ := by
      rw [← hst1, htext]
      exact get_set_live st.tempC now2 req1.text ⟨joinChunks body.chunks, ctype⟩
        (now1 + fiveMinutes) hwin
    exact handler_hit_temp persist2 now2 upstream2 req2 st1
      ⟨joinChunks body.chunks, ctype⟩ hv2 hgc hgt

/-- Claim C3 witness: a durable first request for "hello" with key k1 and
voice v, then a second request for "hello" with entirely different voice
parameters and credentials; the second is served the first audio [7]
without any upstream exchange. -/
theorem C3_key_ignores_voice_params_witness :
    handleTTSRequest false 1 (.netError "unreachable")
        (Except.ok ⟨"hello", "lt-LT", "Male", "otherVoice", "sad", "k2", "r2", false⟩)
        ⟨[("hello", ⟨⟨[7], "audio/mpeg"⟩, none⟩)], []⟩ =
      ⟨.stream "audio/mpeg" (joinChunks [[7]]) true,
       ⟨[("hello", ⟨⟨[7], "audio/mpeg"⟩, none⟩)], []⟩, false, false⟩ :=
  C3_key_ignores_voice_params true false 0 1
    ⟨"hello", "en-US", "Female", "voice", "cheerful", "k1", "r1", true⟩
    ⟨"hello", "lt-LT", "Male", "otherVoice", "sad", "k2", "r2", false⟩
    ⟨[], []⟩ ⟨[("hello", ⟨⟨[7], "audio/mpeg"⟩, none⟩)], []⟩
    "audio/mpeg" ⟨[[7]], false⟩ (.netError "unreachable")
    (by decide) (by decide) rfl (by decide) (by decide) (by decide) (by decide)

/-- Claim C4: streaming fan-out. For every upstream byte sequence,
delivered as any chunking (the empty sequence included), a single pass of
io.Copy through the MultiWriter sends exactly the concatenated sequence to
the client and stores exactly the same sequence as the payload of the new
cache entry, tagged with the upstream declared content type; neither
destination sees a corrupted or reordered subsequence. -/
theorem C4_fanout_exact (persist : Bool) (now : Nat) (req : TTSRequest)
    (st : ServerState) (ctype : String) (chunks : List (List Nat))
    (hv : validFields req) (hm : missBoth st now req.text) :
    (handleTTSRequest persist now (.httpResponse 200 ctype ⟨chunks, false⟩)
        (.ok req) st).response =
      Response.stream ctype (joinChunks chunks) true ∧
    Store.find
        (if req.shouldCache then
          (handleTTSRequest persist now (.httpResponse 200 ctype ⟨chunks, false⟩)
            (.ok req) st).state.c
         else
          (handleTTSRequest persist now (.httpResponse 200 ctype ⟨chunks, false⟩)
            (.ok req) st).state.tempC)
        req.text =
      some ⟨⟨joinChunks chunks, ctype⟩,
            if req.shouldCache then none else some (now + fiveMinutes)⟩ := by
  rw [handler_success persist now ctype ⟨chunks, false⟩ req st hv hm]
  constructor
  · rfl
  · by_cases hsc : req.shouldCache
    · simp only [hsc, if_pos]
      exact find_set_self st.c req.text ⟨joinChunks chunks, ctype⟩ none
    · simp only [hsc, Bool.false_eq_true, if_neg, not_false_eq_true]
      exact find_set_self st.tempC req.text ⟨joinChunks chunks, ctype⟩
        (some (now + fiveMinutes))

/-- Claim C4 witness: the empty upstream sequence, durable flag set: the
client receives the empty body and the durable tier stores the empty
payload with the declared content type. -/
theorem C4_fanout_exact_witness :
    (handleTTSRequest true 0 (.httpResponse 200 "audio/mpeg" ⟨[], false⟩)
        (Except.ok ⟨"hi", "en", "f", "v", "s", "k", "r", true⟩) ⟨[], []⟩).response =
      Response.stream "audio/mpeg" (joinChunks []) true ∧
    Store.find
        (if (⟨"hi", "en", "f", "v", "s", "k", "r", true⟩ : TTSRequest).shouldCache then
          (handleTTSRequest true 0 (.httpResponse 200 "audio/mpeg" ⟨[], false⟩)
            (Except.ok ⟨"hi", "en", "f", "v", "s", "k", "r", true⟩) ⟨[], []⟩).state.c
         else
          (handleTTSRequest true 0 (.httpResponse 200 "audio/mpeg" ⟨[], false⟩)
            (Except.ok ⟨"hi", "en", "f", "v", "s", "k", "r", true⟩) ⟨[], []⟩).state.tempC)
        "hi" =
      some ⟨⟨joinChunks [], "audio/mpeg"⟩,
            if (⟨"hi", "en", "f", "v", "s", "k", "r", true⟩ : TTSRequest).shouldCache
            then none else some (0 + fiveMinutes)⟩ :=
  C4_fanout_exact true 0 ⟨"hi", "en", "f", "v", "s", "k", "r", true⟩ ⟨[], []⟩
    "audio/mpeg" [] (by decide) (by decide)

/-- Claim C7: tiering on commit. For every request that completes the
upstream exchange with status 200: when shouldCache is true the captured
entry is Set into the durable tier with NoExpiration and the temporary
tier is untouched, and the asynchronous saveCache is spawned exactly when
persistence is enabled; when shouldCache is false the entry is Set only
into the temporary tier with the fixed 5 minute absolute expiration, the
durable tier is untouched, and no save is spawned. -/
theorem C7_tiering_on_commit (persist : Bool) (now : Nat) (req : TTSRequest)
    (st : ServerState) (ctype : String) (body : BodyStream)
    (hv : validFields req) (hm : missBoth st now req.text) :
    (handleTTSRequest persist now (.httpResponse 200 ctype body) (.ok req) st).state =
      (if req.shouldCache then
        ⟨Store.set st.c req.text ⟨joinChunks body.chunks, ctype⟩ none, st.tempC⟩
       else
        ⟨st.c, Store.set st.tempC req.text ⟨joinChunks body.chunks, ctype⟩
          (some (now + fiveMinutes))⟩) ∧
    (handleTTSRequest persist now (.httpResponse 200 ctype body) (.ok req) st).saveTriggered =
      (persist && req.shouldCache) := by
  rw [handler_success persist now ctype body req st hv hm]
  exact ⟨rfl, rfl⟩

/-- Claim C7 witness: a durable commit with persistence enabled spawns the
save and writes only the durable tier. -/
theorem C7_tiering_on_commit_witness :
    (handleTTSRequest true 2 (.httpResponse 200 "audio/mpeg" ⟨[[5, 6]], false⟩)
        (Except.ok ⟨"txt", "en", "f", "v", "s", "k", "r", true⟩) ⟨[], []⟩).state =
      (if (⟨"txt", "en", "f", "v", "s", "k", "r", true⟩ : TTSRequest).shouldCache then
        ⟨Store.set [] "txt" ⟨joinChunks [[5, 6]], "audio/mpeg"⟩ none, []⟩
       else
        ⟨[], Store.set [] "txt" ⟨joinChunks [[5, 6]], "audio/mpeg"⟩
          (some (2 + fiveMinutes))⟩) ∧
    (handleTTSRequest true 2 (.httpResponse 200 "audio/mpeg" ⟨[[5, 6]], false⟩)
        (Except.ok ⟨"txt", "en", "f", "v", "s", "k", "r", true⟩) ⟨[], []⟩).saveTriggered =
      (true && (⟨"txt", "en", "f", "v", "s", "k", "r", true⟩ : TTSRequest).shouldCache) :=
  C7_tiering_on_commit true 2 ⟨"txt", "en", "f", "v", "s", "k", "r", true⟩ ⟨[], []⟩
    "audio/mpeg" ⟨[[5, 6]], false⟩ (by decide) (by decide)

/-- Claim C8: lookup order and short-circuit. For every valid request, a
hit in the durable tier is served from the durable tier regardless of
what the temporary tier holds — the durable tier is probed first — and a
durable miss with a temporary hit is served from the temporary tier; in
both cases the stored payload bytes and content type are returned
unchanged, no upstream exchange is performed, no save is spawned and both
tiers are left exactly as they were. -/
theorem C8_lookup_order (persist : Bool) (now : Nat) (upstream : UpstreamResult)
    (req : TTSRequest) (st : ServerState) (e : CacheEntry)
    (hv : validFields req) :
    (Store.get st.c now req.text = some e →
      handleTTSRequest persist now upstream (.ok req) st =
        ⟨.stream e.type e.audio true, st, false, false⟩) ∧
    (Store.get st.c now req.text = none → Store.get st.tempC now req.text = some e →
      handleTTSRequest persist now upstream (.ok req) st =
        ⟨.stream e.type e.audio true, st, false, false⟩) := by
  constructor
  · intro h
    exact handler_hit_c persist now upstream req st e hv h
  · intro hc h
    exact handler_hit_temp persist now upstream req st e hv hc h

/-- Claim C8 witness: a state whose durable tier and temporary tier both
hold the key "dup" with different payloads; the durable entry [1] wins,
the state is unchanged and no upstream exchange happens; and on a state
where only the temporary tier holds "tmp", the temporary entry is served
unchanged. -/
theorem C8_lookup_order_witness :
    handleTTSRequest true 3 (.netError "unreachable")
        (Except.ok ⟨"dup", "en", "f", "v", "s", "k", "r", true⟩)
        ⟨[("dup", ⟨⟨[1], "audio/a"⟩, none⟩)], [("dup", ⟨⟨[2], "audio/b"⟩, none⟩)]⟩ =
      ⟨.stream "audio/a" [1] true,
       ⟨[("dup", ⟨⟨[1], "audio/a"⟩, none⟩)], [("dup", ⟨⟨[2], "audio/b"⟩, none⟩)]⟩,
       false, false⟩ ∧
    handleTTSRequest true 3 (.netError "unreachable")
        (Except.ok ⟨"tmp", "en", "f", "v", "s", "k", "r", true⟩)
        ⟨[], [("tmp", ⟨⟨[4], "audio/b"⟩, some 9⟩)]⟩ =
      ⟨.stream "audio/b" [4] true, ⟨[], [("tmp", ⟨⟨[4], "audio/b"⟩, some 9⟩)]⟩,
       false, false⟩ :=
  ⟨(C8_lookup_order true 3 (.netError "unreachable")
      ⟨"dup", "en", "f", "v", "s", "k", "r", true⟩
      ⟨[("dup", ⟨⟨[1], "audio/a"⟩, none⟩)], [("dup", ⟨⟨[2], "audio/b"⟩, none⟩)]⟩
      ⟨[1], "audio/a"⟩ (by decide)).1 (by decide),
   (C8_lookup_order true 3 (.netError "unreachable")
      ⟨"tmp", "en", "f", "v", "s", "k", "r", true⟩
      ⟨[], [("tmp", ⟨⟨[4], "audio/b"⟩, some 9⟩)]⟩
      ⟨[4], "audio/b"⟩ (by decide)).2 (by decide) (by decide)⟩

theorem map_reinsert_id (s : Store) (hne : neverExpires s) :
    s.map (fun kv => (kv.1, (⟨kv.2.object, none⟩ : Item))) = s := by
  induction s with
  | nil => rfl
  | cons kv rest ih =>
    have h1 : kv.2.expiration = none := hne kv (by simp)
    have h2 : (⟨kv.2.object, none⟩ : Item) = kv.2 := by
      cases hkv : kv.2 with
      | mk o e =>
        rw [hkv] at h1
        simp only at h1
        rw [h1]
    simp only [List.map_cons, h2, Prod.mk.eta, List.cons.injEq, true_and]
    exact ih (fun kv2 h => hne kv2 (by simp [h]))

/-- Claim C5: round-trip. For every durable-tier state — any association
order of distinct keys, all entries carrying the NoExpiration policy the
durable tier always writes — encoding it with saveCache and decoding the
resulting file with loadCache into the fresh empty store yields a store
whose unexpired items enumeration is set-equal to the original by key,
payload bytes and content type. -/
theorem C5_save_load_roundtrip (now : Nat) (st : ServerState) (fs : FileState)
    (hnd : nodupKeys st.c) (hne : neverExpires st.c) :
    ∃ s2, loadCache (saveCache none now st fs).file = Except.ok s2 ∧
      ∀ k a t, (∃ e, (k, (⟨⟨a, t⟩, e⟩ : Item)) ∈ Store.items s2 now) ↔
               (∃ e, (k, (⟨⟨a, t⟩, e⟩ : Item)) ∈ Store.items st.c now) := by
  refine ⟨st.c, ?_, fun k a t => Iff.rfl⟩
  show loadCache (.good (Store.items st.c now)) = Except.ok st.c
  rw [items_never st.c now hne]
  show Except.ok (st.c.foldl (fun s kv => Store.set s kv.1 kv.2.object none) []) =
    Except.ok st.c
  rw [load_fold st.c [] hnd (by intro kv h; simp [Store.keys])]
  rw [List.nil_append, map_reinsert_id st.c hne]

/-- Claim C5 witness: a two-entry durable tier survives the save and load
round trip with its items intact. -/
theorem C5_save_load_roundtrip_witness :
    ∃ s2, loadCache (saveCache none 4
        ⟨[("a", ⟨⟨[1], "t1"⟩, none⟩), ("b", ⟨⟨[2, 3], "t2"⟩, none⟩)], []⟩
        FileState.absent).file = Except.ok s2 ∧
      ∀ k a t, (∃ e, (k, (⟨⟨a, t⟩, e⟩ : Item)) ∈ Store.items s2 4) ↔
               (∃ e, (k, (⟨⟨a, t⟩, e⟩ : Item)) ∈ Store.items
                 [("a", ⟨⟨[1], "t1"⟩, none⟩), ("b", ⟨⟨[2, 3], "t2"⟩, none⟩)] 4) :=
  C5_save_load_roundtrip 4
    ⟨[("a", ⟨⟨[1], "t1"⟩, none⟩), ("b", ⟨⟨[2, 3], "t2"⟩, none⟩)], []⟩
    FileState.absent (by decide) (by decide)

/-- Claim C6: startup load. An absent persistence file yields the empty
durable tier and is not an error; a present but undecodable file is a
fatal startup condition; and a decodable file is loaded by re-inserting
every decoded entry into the durable tier under its key with the durable
default expiration, NoExpiration, so the loaded store holds exactly
never-expiring items. -/
theorem C6_startup_load (items : List (String × Item)) (hnd : nodupKeys items) :
    loadCache FileState.absent = Except.ok [] ∧
    loadCache FileState.corrupt = Except.error "gob decode failed: log.Fatal" ∧
    ∃ s2, loadCache (FileState.good items) = Except.ok s2 ∧
      (∀ kv ∈ items, (kv.1, (⟨kv.2.object, none⟩ : Item)) ∈ s2) ∧
      neverExpires s2 := by
  refine ⟨rfl, rfl, items.map (fun kv => (kv.1, (⟨kv.2.object, none⟩ : Item))), ?_, ?_, ?_⟩
  · show Except.ok (items.foldl (fun s kv => Store.set s kv.1 kv.2.object none) []) = _
    rw [load_fold items [] hnd (by intro kv h; simp [Store.keys])]
    rw [List.nil_append]
  · intro kv h
    exact List.mem_map_of_mem _ h
  · intro kv h
    rcases List.mem_map.mp h with ⟨kv0, _, hh⟩
    rw [← hh]

/-- Claim C6 witness: two decoded entries, one of which carries a stale
expiration stamp in the file, are both reinserted never-expiring; the
absent and corrupt cases behave as claimed. -/
theorem C6_startup_load_witness :
    loadCache FileState.absent = Except.ok [] ∧
    loadCache FileState.corrupt = Except.error "gob decode failed: log.Fatal" ∧
    ∃ s2, loadCache (FileState.good
        [("x", ⟨⟨[8], "tx"⟩, some 1⟩), ("y", ⟨⟨[], "ty"⟩, none⟩)]) = Except.ok s2 ∧
      (∀ kv ∈ [("x", (⟨⟨[8], "tx"⟩, some 1⟩ : Item)), ("y", ⟨⟨[], "ty"⟩, none⟩)],
        (kv.1, (⟨kv.2.object, none⟩ : Item)) ∈ s2) ∧
      neverExpires s2 :=
  C6_startup_load [("x", ⟨⟨[8], "tx"⟩, some 1⟩), ("y", ⟨⟨[], "ty"⟩, none⟩)] (by decide)

theorem bytes_foldl (l : Store) (a : Nat) :
    l.foldl (fun acc kv => acc + entryBytes kv) a = a + (l.map entryBytes).sum := by
  induction l generalizing a with
  | nil => simp
  | cons kv rest ih => simp [ih, Nat.add_assoc]

/-- Claim C9: status introspection. Over any state whose durable tier
holds only never-expiring items (the invariant of every reachable durable
tier: every durable insert uses NoExpiration), the reported entry count is
the number of live durable entries, the reported occupied-bytes total is
the sum over exactly the durable items of payload length plus key length,
and the temporary tier contributes nothing: the report is unchanged under
any replacement of the temporary tier. -/
theorem C9_status_accounting (now : Nat) (st : ServerState)
    (hne : neverExpires st.c) :
    (handleStatusRequest now st).itemsCount = (Store.items st.c now).length ∧
    (handleStatusRequest now st).occupiedBytes =
      ((Store.items st.c now).map entryBytes).sum ∧
    ∀ temp2 : Store, handleStatusRequest now ⟨st.c, temp2⟩ = handleStatusRequest now st := by
  refine ⟨?_, ?_, fun temp2 => rfl⟩
  · show Store.itemCount st.c = (Store.items st.c now).length
    rw [items_never st.c now hne]
    rfl
  · show (Store.items st.c now).foldl (fun acc kv => acc + entryBytes kv) 0 = _
    rw [bytes_foldl]
    simp

/-- Claim C9 witness: a durable tier with entries ("k", 3 bytes) and
("key2", 1 byte) and a populated temporary tier: the count is 2, the
byte total is (3 + 1) + (1 + 4) = 9, and swapping the temporary tier out
does not change the report. -/
theorem C9_status_accounting_witness :
    (handleStatusRequest 5
        ⟨[("k", ⟨⟨[1, 2, 3], "t"⟩, none⟩), ("key2", ⟨⟨[9], "u"⟩, none⟩)],
         [("zz", ⟨⟨[7, 7, 7, 7], "w"⟩, some 2⟩)]⟩).itemsCount =
      (Store.items [("k", ⟨⟨[1, 2, 3], "t"⟩, none⟩), ("key2", ⟨⟨[9], "u"⟩, none⟩)] 5).length ∧
    (handleStatusRequest 5
        ⟨[("k", ⟨⟨[1, 2, 3], "t"⟩, none⟩), ("key2", ⟨⟨[9], "u"⟩, none⟩)],
         [("zz", ⟨⟨[7, 7, 7, 7], "w"⟩, some 2⟩)]⟩).occupiedBytes =
      ((Store.items [("k", ⟨⟨[1, 2, 3], "t"⟩, none⟩), ("key2", ⟨⟨[9], "u"⟩, none⟩)] 5).map
        entryBytes).sum ∧
    handleStatusRequest 5
        ⟨[("k", ⟨⟨[1, 2, 3], "t"⟩, none⟩), ("key2", ⟨⟨[9], "u"⟩, none⟩)], []⟩ =
      handleStatusRequest 5
        ⟨[("k", ⟨⟨[1, 2, 3], "t"⟩, none⟩), ("key2", ⟨⟨[9], "u"⟩, none⟩)],
         [("zz", ⟨⟨[7, 7, 7, 7], "w"⟩, some 2⟩)]⟩ :=
  ⟨(C9_status_accounting 5
      ⟨[("k", ⟨⟨[1, 2, 3], "t"⟩, none⟩), ("key2", ⟨⟨[9], "u"⟩, none⟩)],
       [("zz", ⟨⟨[7, 7, 7, 7], "w"⟩, some 2⟩)]⟩ (by decide)).1,
   (C9_status_accounting 5
      ⟨[("k", ⟨⟨[1, 2, 3], "t"⟩, none⟩), ("key2", ⟨⟨[9], "u"⟩, none⟩)],
       [("zz", ⟨⟨[7, 7, 7, 7], "w"⟩, some 2⟩)]⟩ (by decide)).2.1,
   (C9_status_accounting 5
      ⟨[("k", ⟨⟨[1, 2, 3], "t"⟩, none⟩), ("key2", ⟨⟨[9], "u"⟩, none⟩)],
       [("zz", ⟨⟨[7, 7, 7, 7], "w"⟩, some 2⟩)]⟩ (by decide)).2.2 []⟩

theorem store_keys_set (s : Store) (k : String) (v : CacheEntry) (e : Option Nat)
    (hs : ∀ kv ∈ s, kv.1 ≠ "") (hk : k ≠ "") :
    ∀ kv ∈ Store.set s k v e, kv.1 ≠ "" := by
  intro kv h
  rcases mem_set s k v e kv h with h2 | h2
  · exact hs kv h2
  · rw [h2]; exact hk

/-- Claim C10: the empty string is never a key in either tier. A request
whose text field is empty is rejected with a 400 client error before any
tier lookup, upstream exchange or insertion (the state is returned
unchanged), and one handler step starting from any state in which neither
tier holds the empty key again yields a state in which neither tier holds
the empty key — so every state reachable through the request handler
keeps both tiers free of the empty-string key. -/
theorem C10_no_empty_key (persist : Bool) (now : Nat) (upstream : UpstreamResult)
    (decoded : Except String TTSRequest) (st : ServerState) (req : TTSRequest)
    (hinv : noEmptyKey st) (hreq : req.text = "") :
    noEmptyKey (handleTTSRequest persist now upstream decoded st).state ∧
    ((handleTTSRequest persist now upstream (.ok req) st).state = st ∧
     (∃ msg, (handleTTSRequest persist now upstream (.ok req) st).response =
       Response.clientError msg) ∧
     (handleTTSRequest persist now upstream (.ok req) st).upstreamCalled = false) := by
  constructor
  · unfold handleTTSRequest
    cases decoded with
    | error msg => exact hinv
    | ok req2 =>
      by_cases h1 : req2.azureKey = ""
      · simpa [h1] using hinv
      · by_cases h2 : req2.text = ""
        · simpa [h1, h2] using hinv
        · by_cases h3 : req2.azureRegion = ""
          · simpa [h1, h2, h3] using hinv
          · cases hgc : Store.get st.c now req2.text with
            | some e => simpa [h1, h2, h3, hgc] using hinv
            | none =>
              cases hgt : Store.get st.tempC now req2.text with
              | some e => simpa [h1, h2, h3, hgc, hgt] using hinv
              | none =>
                cases upstream with
                | netError msg => simpa [h1, h2, h3, hgc, hgt] using hinv
                | httpResponse status ctype body =>
                  by_cases hs : status = 200
                  · subst hs
                    by_cases hsc : req2.shouldCache
                    · simp only [h1, h2, h3, hgc, hgt, hsc, ite_true, ite_false,
                        ne_eq, not_true_eq_false, not_false_eq_true, if_neg, if_pos]
                      exact ⟨store_keys_set st.c req2.text _ none hinv.1 h2, hinv.2⟩
                    · simp only [h1, h2, h3, hgc, hgt, hsc, Bool.false_eq_true,
                        ite_true, ite_false, ne_eq, not_true_eq_false,
                        not_false_eq_true, if_neg, if_pos]
                      exact ⟨hinv.1, store_keys_set st.tempC req2.text _ _ hinv.2 h2⟩
                  · simpa [h1, h2, h3, hgc, hgt, hs] using hinv
  · by_cases hk : req.azureKey = ""
    · refine ⟨?_, ⟨"azureKey is required", ?_⟩, ?_⟩ <;> simp [handleTTSRequest, hk]
    · refine ⟨?_, ⟨"text is required", ?_⟩, ?_⟩ <;> simp [handleTTSRequest, hk, hreq]

/-- Claim C10 witness: starting from a state holding "hello" in the
durable tier, a successful durable commit for "world" keeps both tiers
free of the empty key; and the request with empty text on that same state
is rejected with a client error, the state unchanged and upstream never
invoked. -/
theorem C10_no_empty_key_witness :
    noEmptyKey (handleTTSRequest true 0
        (UpstreamResult.httpResponse 200 "audio/mpeg" ⟨[[1]], false⟩)
        (Except.ok ⟨"world", "en", "f", "v", "s", "k", "r", true⟩)
        ⟨[("hello", ⟨⟨[7], "t"⟩, none⟩)], []⟩).state ∧
    ((handleTTSRequest true 0
        (UpstreamResult.httpResponse 200 "audio/mpeg" ⟨[[1]], false⟩)
        (Except.ok ⟨"", "en", "f", "v", "s", "k", "r", true⟩)
        ⟨[("hello", ⟨⟨[7], "t"⟩, none⟩)], []⟩).state =
      ⟨[("hello", ⟨⟨[7], "t"⟩, none⟩)], []⟩ ∧
     (∃ msg, (handleTTSRequest true 0
        (UpstreamResult.httpResponse 200 "audio/mpeg" ⟨[[1]], false⟩)
        (Except.ok ⟨"", "en", "f", "v", "s", "k", "r", true⟩)
        ⟨[("hello", ⟨⟨[7], "t"⟩, none⟩)], []⟩).response =
       Response.clientError msg) ∧
     (handleTTSRequest true 0
        (UpstreamResult.httpResponse 200 "audio/mpeg" ⟨[[1]], false⟩)
        (Except.ok ⟨"", "en", "f", "v", "s", "k", "r", true⟩)
        ⟨[("hello", ⟨⟨[7], "t"⟩, none⟩)], []⟩).upstreamCalled = false) :=
  C10_no_empty_key true 0
    (UpstreamResult.httpResponse 200 "audio/mpeg" ⟨[[1]], false⟩)
    (Except.ok ⟨"world", "en", "f", "v", "s", "k", "r", true⟩)
    ⟨[("hello", ⟨⟨[7], "t"⟩, none⟩)], []⟩
    ⟨"", "en", "f", "v", "s", "k", "r", true⟩ (by decide) rfl
